import Mathlib

/-
  Verification development for the metana job-application service.

  The definitions below are a shallow embedding of the TypeScript source:
  the webhook notifier (sendWebhookNotification, retryWebhook), the external
  parser gateway (sendUrlToPythonService), the submission pipeline
  (POST /api/applications) and the resend-webhook endpoint.  Fallible
  external steps (S3 upload, the structural projection of parser output,
  the webhook POST, the database save) are modelled as explicit outcome
  parameters; side effects are collected into an explicit effect trace.
  JavaScript truthiness of strings (the empty string is falsy) is modelled
  by jsOrStr and jsBlank.
-/

namespace Metana

/-- Environment tag passed to the webhook notifier: "testing" or "prod". -/
inductive Env where
  | testing
  | prod
  deriving DecidableEq, Repr

/-- String rendering of the environment tag, as it appears in metadata.status. -/
def Env.toStr : Env → String
  | .testing => "testing"
  | .prod => "prod"

/-- JavaScript x || d for a possibly-absent string: absent and the empty
string are falsy, so both fall through to the default d. -/
def jsOrStr (x : Option String) (d : String) : String :=
  match x with
  | none => d
  | some s => if s = "" then d else s

/-- JavaScript falsiness test for a possibly-absent string field. -/
def jsBlank (x : Option String) : Bool :=
  match x with
  | none => true
  | some s => s = ""

/-- One employment-history entry of the parsed resume. -/
structure Employment where
  company : Option String
  position : Option String
  startDate : Option String
  endDate : Option String
  description : Option String
  deriving DecidableEq, Repr

/-- One education entry of the parsed resume. -/
structure Education where
  institution : Option String
  degree : Option String
  startDate : Option String
  endDate : Option String
  deriving DecidableEq, Repr

/-- The data argument of sendWebhookNotification: the fields that the
payload construction and the call sites actually read.  Every field is
optional, matching untyped access on the parsed object. -/
structure WebhookData where
  fullName : Option String
  email : Option String
  github : Option String
  linkedin : Option String
  employment : Option (List Employment)
  technicalSkills : Option (List String)
  softSkills : Option (List String)
  education : Option (List Education)
  rawData : Option String
  cvUrl : Option String
  deriving DecidableEq, Repr

/-- WebhookData with every field absent. -/
def wdEmpty : WebhookData :=
  ⟨none, none, none, none, none, none, none, none, none, none⟩

/-- WebhookData carrying only a raw payload, as built on the structural
parse failure path of the submission pipeline. -/
def rawOnlyWebhookData (raw : String) : WebhookData :=
  ⟨none, none, none, none, none, none, none, none, some raw, none⟩

/-- personal_info block of the webhook payload. -/
structure PersonalInfo where
  name : String
  email : String
  github : String
  linkedin : String
  deriving DecidableEq, Repr

/-- cv_data block of the webhook payload.  work_experience = none models a
payload in which the work_experience key is not present at all. -/
structure CvData where
  personal_info : PersonalInfo
  education : List Education
  qualifications : List String
  projects : List String
  cv_public_link : String
  work_experience : Option (List Employment)
  deriving DecidableEq, Repr

/-- metadata block of the webhook payload. -/
structure PayloadMetadata where
  applicant_name : String
  email : String
  status : String
  cv_processed : Bool
  processed_timestamp : String
  deriving DecidableEq, Repr

/-- The complete webhook payload posted to the fixed external endpoint. -/
structure WebhookPayload where
  cv_data : CvData
  metadata : PayloadMetadata
  deriving DecidableEq, Repr

/-- The payload construction of sendWebhookNotification.  now is the ISO
string produced at call time by new Date().toISOString().  The
work_experience key is added only when data.employment is present, since
an array value (even empty) is truthy in JavaScript. -/
def buildWebhookPayload (data : WebhookData) (email : String)
    (environment : Env) (now : String) : WebhookPayload :=
  { cv_data :=
      { personal_info :=
          { name := jsOrStr data.fullName ""
            email := jsOrStr data.email email
            github := jsOrStr data.github ""
            linkedin := jsOrStr data.linkedin "" }
        education := data.education.getD []
        qualifications := data.technicalSkills.getD []
        projects := []
        cv_public_link := jsOrStr data.cvUrl ""
        work_experience := data.employment }
    metadata :=
      { applicant_name := jsOrStr data.fullName "Unknown Candidate"
        email := email
        status := environment.toStr
        cv_processed := true
        processed_timestamp := now } }

/-- PayloadMetadata with the processed_timestamp field blanked, used to
compare the time-independent part of two payloads. -/
def eraseTimestamp (m : PayloadMetadata) : PayloadMetadata :=
  { m with processed_timestamp := "" }

/-- Result shape returned by sendWebhookNotification: success with status
and response data, or failure with error message and optional response
details.  Absent keys are modelled as none. -/
structure NotifyResult where
  success : Bool
  status : Option Nat
  data : Option String
  error : Option String
  details : Option String
  deriving DecidableEq, Repr

/-- sendWebhookNotification: builds the payload and posts it; the outcome
of the single POST is the parameter post.  Any transport failure is
caught and returned as a success := false result, never thrown. -/
def sendWebhookNotification (data : WebhookData) (email : String)
    (environment : Env) (now : String)
    (post : WebhookPayload → Except (String × Option String) (Nat × String)) :
    NotifyResult :=
  match post (buildWebhookPayload data email environment now) with
  | .ok (st, respData) => ⟨true, some st, some respData, none, none⟩
  | .error (msg, respDetails) => ⟨false, none, none, some msg, respDetails⟩

/-- Outcome of a retryWebhook run: the returned result, the number of
notifier attempts made, and the number of inter-attempt delays awaited. -/
structure RetryOutcome where
  result : NotifyResult
  attempts : Nat
  delays : Nat
  deriving DecidableEq, Repr

/-- The aggregated failure message built after exhausting all retries. -/
def failAggregate (retries : Nat) (lastError : String) : String :=
  "Failed after " ++ toString retries ++ " attempts. Last error: " ++ lastError

/-- Loop body of retryWebhook.  notify gives the notifier result of each
1-based attempt; the first argument is the number of remaining attempts.
After every failed attempt, including the final one, the code awaits the
fixed delay before re-testing the loop condition, so delays increments on
every failure. -/
def retryGo (notify : Nat → NotifyResult) (retries : Nat) :
    Nat → Nat → Nat → String → RetryOutcome
  | 0, attempts, delays, lastError =>
      ⟨⟨false, none, none, some (failAggregate retries lastError), none⟩,
        attempts, delays⟩
  | n + 1, attempts, delays, _ =>
      let r := notify (attempts + 1)
      if r.success then ⟨r, attempts + 1, delays⟩
      else retryGo notify retries n (attempts + 1) (delays + 1)
        (r.error.getD "undefined")

/-- retryWebhook: up to retries sequential attempts, returning the first
success or an aggregated failure.  lastError starts out undefined. -/
def retryWebhook (notify : Nat → NotifyResult) (retries : Nat) : RetryOutcome :=
  retryGo notify retries retries 0 0 "undefined"

/-- Outbound calls made by the external parser gateway. -/
inductive PyEffect where
  | healthProbe
  | parseRequest (url : String)
  deriving DecidableEq, Repr

/-- sendUrlToPythonService: available is the result of the short-timeout
health probe (any probe failure yields false); parseOutcome is the
outcome of the long-timeout parse request.  When the probe fails the
parse request is never issued; when the parse request fails the error is
caught and null is returned.  The function is total: no outcome is an
exception. -/
def sendUrlToPythonService (fileUrl : String) (available : Bool)
    (parseOutcome : Except String String) : Option String × List PyEffect :=
  if available then
    match parseOutcome with
    | .ok d => (some d, [.healthProbe, .parseRequest fileUrl])
    | .error _ => (none, [.healthProbe, .parseRequest fileUrl])
  else (none, [.healthProbe])

/-- The cv file extracted from the multipart form. -/
structure CVFile where
  name : String
  type : String
  size : Nat
  deriving DecidableEq, Repr

/-- The multipart form of a submission request; formData.get yields null
for a missing field, modelled as none. -/
structure SubmissionForm where
  name : Option String
  email : Option String
  phone : Option String
  cv : Option CVFile
  deriving DecidableEq, Repr

/-- Response body of the Python parse service as read by the pipeline:
only the parsed_data field is consulted.  The raw payload is modelled as
an opaque string. -/
structure PythonResponse where
  parsed_data : Option String
  deriving DecidableEq, Repr

/-- Result of uploadFile: the S3 url and the optional Python response. -/
structure UploadResult where
  fileUrl : String
  pythonResponse : Option PythonResponse
  deriving DecidableEq, Repr

/-- The structured fields read off the parsed object by the projection
step and by the resend endpoint. -/
structure ParsedFields where
  fullName : Option String
  email : Option String
  github : Option String
  linkedin : Option String
  employment : Option (List Employment)
  technicalSkills : Option (List String)
  softSkills : Option (List String)
  education : Option (List Education)
  deriving DecidableEq, Repr

/-- The parsedResume sub-document of a stored application record. -/
structure ParsedResume where
  fullName : Option String
  email : Option String
  github : Option String
  linkedin : Option String
  employment : Option (List Employment)
  technicalSkills : Option (List String)
  softSkills : Option (List String)
  education : Option (List Education)
  rawData : Option String
  deriving DecidableEq, Repr

/-- ParsedResume holding only the raw payload, as stored when the
structural projection of the enrichment response throws. -/
def rawOnlyParsedResume (raw : String) : ParsedResume :=
  ⟨none, none, none, none, none, none, none, none, some raw⟩

/-- The cv sub-document of a stored application record. -/
structure CVRecord where
  fileName : String
  fileType : String
  fileSize : Nat
  url : String
  pythonAnalysis : Option PythonResponse
  deriving DecidableEq, Repr

/-- A stored application record, restricted to the fields the two
endpoints read and write. -/
structure ApplicationRecord where
  name : String
  email : String
  phone : String
  cv : CVRecord
  parsedResume : Option ParsedResume
  webhookSent : Bool
  webhookResponse : Option NotifyResult
  deriving DecidableEq, Repr

/-- Side effects performed by the two endpoints: an uploadFile call (with
its sendToPython flag), a sendWebhookNotification call (with the data,
email and environment arguments), and a database save of a record. -/
inductive Effect where
  | upload (fileName : String) (sendToPython : Bool)
  | webhook (data : WebhookData) (email : String) (environment : Env)
  | save (app : ApplicationRecord)
  deriving DecidableEq, Repr

/-- The JSON response of an endpoint: HTTP status plus the body fields the
routes emit; absent body keys are none. -/
structure ApiResponse where
  statusCode : Nat
  success : Option Bool
  message : Option String
  error : Option String
  webhookSentFlag : Option Bool
  webhookResult : Option NotifyResult
  deriving DecidableEq, Repr

/-- The 400 response of the submission route for missing fields. -/
def resp400 : ApiResponse :=
  ⟨400, none, none, some "Missing required fields", none, none⟩

/-- Outcomes of the external steps of one submission-pipeline run:
the first uploadFile call (sendToPython = true), the retried uploadFile
call (sendToPython = false), the structural projection of parsed_data
(the try block around JSON.parse and field access), the webhook result,
and the database save. -/
structure PipelineEnv where
  uploadOutcome : Except String UploadResult
  uploadRetryOutcome : Except String UploadResult
  projectOutcome : String → Except Unit ParsedFields
  webhookOutcome : NotifyResult
  saveOutcome : Except String Unit

/-- Models uploadError.message.includes with the fixed pattern used by
the route to recognise a Python-service upload failure. -/
def mentionsPythonService (msg : String) : Bool :=
  (msg.splitOn "Python service").length > 1

/-- The enrichment-processing block of the submission route: given the
form email, the S3 url and the optional Python response, produce the
parsedResume value, the webhook result and the webhook effects.  On
structural projection failure only the raw payload is stored and the
webhook is still attempted with that raw payload and the form email. -/
def processEnrichment (email fileUrl : String) (env : PipelineEnv)
    (pythonResponse : Option PythonResponse) :
    Option ParsedResume × Option NotifyResult × List Effect :=
  match pythonResponse with
  | none => (none, none, [])
  | some pr =>
    match pr.parsed_data with
    | none => (none, none, [])
    | some raw =>
      if raw = "" then (none, none, [])
      else
        match env.projectOutcome raw with
        | .ok p =>
          let resume : ParsedResume :=
            { fullName := p.fullName
              email := some (jsOrStr p.email email)
              github := p.github
              linkedin := p.linkedin
              employment := p.employment
              technicalSkills := p.technicalSkills
              softSkills := p.softSkills
              education := p.education
              rawData := some raw }
          let webhookData : WebhookData :=
            { fullName := p.fullName
              email := p.email
              github := p.github
              linkedin := p.linkedin
              employment := p.employment
              technicalSkills := p.technicalSkills
              softSkills := p.softSkills
              education := p.education
              rawData := none
              cvUrl := some fileUrl }
          (some resume, some env.webhookOutcome,
            [Effect.webhook webhookData (jsOrStr p.email email) Env.testing])
        | .error _ =>
          (some (rawOnlyParsedResume raw), some env.webhookOutcome,
            [Effect.webhook (rawOnlyWebhookData raw) email Env.testing])

/-- The submission route after validation and after a successful upload:
process enrichment, build the record, save it, and respond. -/
def afterUpload (name email phone : String) (cvFile : CVFile)
    (fileUrl : String) (pythonResponse : Option PythonResponse)
    (env : PipelineEnv) (uploadEffects : List Effect) :
    ApiResponse × List Effect :=
  let step := processEnrichment email fileUrl env pythonResponse
  let parsedResume := step.1
  let webhookResult := step.2.1
  let whEffects := step.2.2
  let sent := (webhookResult.map NotifyResult.success).getD false
  let application : ApplicationRecord :=
    { name := name
      email := email
      phone := phone
      cv := { fileName := cvFile.name, fileType := cvFile.type,
              fileSize := cvFile.size, url := fileUrl,
              pythonAnalysis := pythonResponse }
      parsedResume := parsedResume
      webhookSent := sent
      webhookResponse := webhookResult }
  match env.saveOutcome with
  | .ok _ =>
    (⟨201, some true, some "Application submitted successfully", none,
        some sent, none⟩,
      uploadEffects ++ whEffects ++ [Effect.save application])
  | .error msg =>
    (⟨500, none, none, some ("Error processing application: " ++ msg),
        none, none⟩,
      uploadEffects ++ whEffects ++ [Effect.save application])

/-- The submission route after field validation: upload (retrying once
without enrichment when the failure message mentions the Python service),
then continue with afterUpload. -/
def postAfterValidation (name email phone : String) (cvFile : CVFile)
    (env : PipelineEnv) : ApiResponse × List Effect :=
  match env.uploadOutcome with
  | .ok r =>
    afterUpload name email phone cvFile r.fileUrl r.pythonResponse env
      [Effect.upload cvFile.name true]
  | .error msg =>
    if mentionsPythonService msg then
      match env.uploadRetryOutcome with
      | .ok r =>
        afterUpload name email phone cvFile r.fileUrl none env
          [Effect.upload cvFile.name true, Effect.upload cvFile.name false]
      | .error msg2 =>
        (⟨500, none, none, some ("Error processing application: " ++ msg2),
            none, none⟩,
          [Effect.upload cvFile.name true, Effect.upload cvFile.name false])
    else
      (⟨500, none, none, some ("Error processing application: " ++ msg),
          none, none⟩,
        [Effect.upload cvFile.name true])

/-- POST /api/applications: validates presence of name, email, phone and
the cv file (null or the empty string is falsy and fails validation) and
runs the pipeline.  The 400 path returns before any side effect. -/
def postApplication (form : SubmissionForm) (env : PipelineEnv) :
    ApiResponse × List Effect :=
  match form.name, form.email, form.phone, form.cv with
  | some name, some email, some phone, some cvFile =>
    if name = "" || email = "" || phone = "" then (resp400, [])
    else postAfterValidation name email phone cvFile env
  | _, _, _, _ => (resp400, [])

/-- Outcomes of the external steps of one resend-webhook run: the
reconstruction of a webhook data object from the stored raw payload (the
try block around JSON.parse), the webhook result, and the save. -/
structure ResendEnv where
  rawParseOutcome : String → Except Unit ParsedFields
  webhookOutcome : NotifyResult
  saveOutcome : Except String Unit

/-- The minimal fallback payload of the resend endpoint when no parsed
resume exists: exactly fullName, email and cvUrl from the base record. -/
def fallbackMinimal (app : ApplicationRecord) : WebhookData :=
  ⟨some app.name, some app.email, none, none, none, none, none, none,
    none, some app.cv.url⟩

/-- The notification data reconstructed by the resend endpoint from a
stored record: preferentially the raw payload (with cvUrl attached), then
the structured parsedResume fields if raw reconstruction throws, then the
minimal base-field fallback when no truthy rawData exists. -/
def resendData (app : ApplicationRecord) (env : ResendEnv) : WebhookData :=
  match app.parsedResume with
  | none => fallbackMinimal app
  | some pr =>
    match pr.rawData with
    | none => fallbackMinimal app
    | some raw =>
      if raw = "" then fallbackMinimal app
      else
        match env.rawParseOutcome raw with
        | .ok p =>
          { fullName := p.fullName
            email := p.email
            github := p.github
            linkedin := p.linkedin
            employment := p.employment
            technicalSkills := p.technicalSkills
            softSkills := p.softSkills
            education := p.education
            rawData := none
            cvUrl := some app.cv.url }
        | .error _ =>
          { fullName := some (jsOrStr pr.fullName app.name)
            email := some (jsOrStr pr.email app.email)
            github := pr.github
            linkedin := pr.linkedin
            employment := pr.employment
            technicalSkills := pr.technicalSkills
            softSkills := pr.softSkills
            education := pr.education
            rawData := none
            cvUrl := some app.cv.url }

/-- POST /api/applications/resend-webhook/id: 404 when the record is
absent; otherwise reconstruct the data, notify once with environment
prod, overwrite the webhook fields, save, and respond 200 with the fixed
success message regardless of the notifier outcome.  A save failure falls
to the catch-all 500. -/
def resendWebhook (found : Option ApplicationRecord) (env : ResendEnv) :
    ApiResponse × List Effect :=
  match found with
  | none => (⟨404, none, none, some "Application not found", none, none⟩, [])
  | some app =>
    let data := resendData app env
    let result := env.webhookOutcome
    let updated : ApplicationRecord :=
      { app with webhookSent := result.success, webhookResponse := some result }
    match env.saveOutcome with
    | .ok _ =>
      (⟨200, some true, some "Webhook resent successfully", none, none,
          some result⟩,
        [Effect.webhook data app.email Env.prod, Effect.save updated])
    | .error _ =>
      (⟨500, none, none, some "Error resending webhook", none, none⟩,
        [Effect.webhook data app.email Env.prod, Effect.save updated])

/-- A notifier behaviour that fails on attempts 1 and 2 and succeeds on
attempt 3, used as a concrete witness input. -/
def notifyThird (i : Nat) : NotifyResult :=
  if i = 3 then ⟨true, some 200, some "ok", none, none⟩
  else ⟨false, none, none, some "timeout", none⟩

/-- A notifier behaviour that fails on every attempt, used as a concrete
witness input. -/
def notifyNever (_ : Nat) : NotifyResult :=
  ⟨false, none, none, some "boom", none⟩

/-- A sample successful webhook result for witnesses. -/
def wresOk : NotifyResult := ⟨true, some 200, some "ok", none, none⟩

/-- A sample failed webhook result for witnesses. -/
def wresFail : NotifyResult := ⟨false, none, none, some "boom", none⟩

/-- A sample cv file for witnesses. -/
def cvSample : CVFile := ⟨"cv.pdf", "application/pdf", 2048⟩

/-- A sample pipeline environment for witnesses: the upload succeeds with
a Python response whose parsed_data fails structural projection. -/
def envSample : PipelineEnv :=
  { uploadOutcome := .ok ⟨"https://bucket.s3.amazonaws.com/cv.pdf", some ⟨some "RAW"⟩⟩
    uploadRetryOutcome := .error "unused"
    projectOutcome := fun _ => .error ()
    webhookOutcome := wresFail
    saveOutcome := .ok () }

/-- A sample stored record without a parsedResume, for witnesses. -/
def appSample : ApplicationRecord :=
  { name := "A"
    email := "a@b.com"
    phone := "1234567890"
    cv := ⟨"cv.pdf", "application/pdf", 2048, "https://bucket.s3.amazonaws.com/cv.pdf", none⟩
    parsedResume := none
    webhookSent := false
    webhookResponse := none }

/-- A sample resend environment for witnesses. -/
def resendEnvSample : ResendEnv :=
  { rawParseOutcome := fun _ => .error ()
    webhookOutcome := wresFail
    saveOutcome := .ok () }

end Metana

namespace Metana

/-- C1 counterexample data: the constructed payload differs between two
calls made at different times, because metadata.processed_timestamp is
taken from the clock. -/
theorem buildWebhookPayload_not_time_invariant :
    buildWebhookPayload wdEmpty "a@b.com" Env.testing "2024-01-01T00:00:00.000Z"
      ≠ buildWebhookPayload wdEmpty "a@b.com" Env.testing "2024-01-01T00:00:01.000Z" := by
  decide

/-- C1 amended: for fixed (data, email, environment) the cv_data block and
the metadata block apart from processed_timestamp are identical across
calls regardless of call time, and calls made at the same clock reading
construct byte-identical payloads. -/
theorem buildWebhookPayload_pure_up_to_timestamp (data : WebhookData)
    (email : String) (environment : Env) (t1 t2 : String) :
    (buildWebhookPayload data email environment t1).cv_data
        = (buildWebhookPayload data email environment t2).cv_data
      ∧ eraseTimestamp (buildWebhookPayload data email environment t1).metadata
        = eraseTimestamp (buildWebhookPayload data email environment t2).metadata
      ∧ (t1 = t2 → buildWebhookPayload data email environment t1
        = buildWebhookPayload data email environment t2) := by
  refine ⟨rfl, rfl, ?_⟩
  intro h
  rw [h]

/-- Witness for buildWebhookPayload_pure_up_to_timestamp at concrete inputs. -/
theorem buildWebhookPayload_pure_up_to_timestamp_witness :
    (buildWebhookPayload wdEmpty "a@b.com" Env.testing "T").cv_data
        = (buildWebhookPayload wdEmpty "a@b.com" Env.testing "T").cv_data
      ∧ eraseTimestamp (buildWebhookPayload wdEmpty "a@b.com" Env.testing "T").metadata
        = eraseTimestamp (buildWebhookPayload wdEmpty "a@b.com" Env.testing "T").metadata
      ∧ ("T" = "T" → buildWebhookPayload wdEmpty "a@b.com" Env.testing "T"
        = buildWebhookPayload wdEmpty "a@b.com" Env.testing "T") :=
  buildWebhookPayload_pure_up_to_timestamp wdEmpty "a@b.com" Env.testing "T" "T"

/-- C2 counterexample: with data.email absent, the personal_info.email
field of the payload is the email argument, not the empty string. -/
theorem personalInfo_email_default_not_empty :
    wdEmpty.email = none
      ∧ (buildWebhookPayload wdEmpty "a@b.com" Env.testing "T").cv_data.personal_info.email
          = "a@b.com"
      ∧ "a@b.com" ≠ "" := by
  decide

/-- C2 amended: name, github and linkedin equal the corresponding data
field when present and the empty string when absent; the email field
equals data.email when present and nonempty, and otherwise (absent, or
present as the falsy empty string) equals the email argument. -/
theorem personalInfo_fields (data : WebhookData) (email : String)
    (environment : Env) (now : String) :
    (∀ s, data.fullName = some s →
        (buildWebhookPayload data email environment now).cv_data.personal_info.name = s)
      ∧ (data.fullName = none →
        (buildWebhookPayload data email environment now).cv_data.personal_info.name = "")
      ∧ (∀ s, data.github = some s →
        (buildWebhookPayload data email environment now).cv_data.personal_info.github = s)
      ∧ (data.github = none →
        (buildWebhookPayload data email environment now).cv_data.personal_info.github = "")
      ∧ (∀ s, data.linkedin = some s →
        (buildWebhookPayload data email environment now).cv_data.personal_info.linkedin = s)
      ∧ (data.linkedin = none →
        (buildWebhookPayload data email environment now).cv_data.personal_info.linkedin = "")
      ∧ (∀ s, data.email = some s → s ≠ "" →
        (buildWebhookPayload data email environment now).cv_data.personal_info.email = s)
      ∧ (data.email = none →
        (buildWebhookPayload data email environment now).cv_data.personal_info.email = email)
      ∧ (data.email = some "" →
        (buildWebhookPayload data email environment now).cv_data.personal_info.email = email) := by
  refine ⟨?_, ?_, ?_, ?_, ?_, ?_, ?_, ?_, ?_⟩ <;>
    simp only [buildWebhookPayload, jsOrStr]
  · intro s hs
    rw [hs]
    by_cases h : s = "" <;> simp [h]
  · intro hs
    rw [hs]
  · intro s hs
    rw [hs]
    by_cases h : s = "" <;> simp [h]
  · intro hs
    rw [hs]
  · intro s hs
    rw [hs]
    by_cases h : s = "" <;> simp [h]
  · intro hs
    rw [hs]
  · intro s hs hne
    rw [hs]
    simp [hne]
  · intro hs
    rw [hs]
  · intro hs
    rw [hs]
    simp

/-- Witness for personalInfo_fields at concrete inputs exercising the
absent, falsy-empty and present-nonempty email branches and an absent
name. -/
theorem personalInfo_fields_witness :
    (buildWebhookPayload wdEmpty "a@b.com" Env.testing "T").cv_data.personal_info.email
        = "a@b.com"
      ∧ (buildWebhookPayload { wdEmpty with email := some "" } "a@b.com"
          Env.testing "T").cv_data.personal_info.email = "a@b.com"
      ∧ (buildWebhookPayload { wdEmpty with email := some "x@y.z" } "a@b.com"
          Env.testing "T").cv_data.personal_info.email = "x@y.z"
      ∧ (buildWebhookPayload wdEmpty "a@b.com" Env.testing "T").cv_data.personal_info.name
        = "" :=
  ⟨(personalInfo_fields wdEmpty "a@b.com" Env.testing "T").2.2.2.2.2.2.2.1 rfl,
    (personalInfo_fields { wdEmpty with email := some "" } "a@b.com"
      Env.testing "T").2.2.2.2.2.2.2.2 rfl,
    (personalInfo_fields { wdEmpty with email := some "x@y.z" } "a@b.com"
      Env.testing "T").2.2.2.2.2.2.1 "x@y.z" rfl (by decide),
    (personalInfo_fields wdEmpty "a@b.com" Env.testing "T").2.1 rfl⟩

/-- C5: the work_experience key of the constructed payload is present if
and only if data.employment is present, and when data.employment is
absent the key is absent; in fact the key holds exactly data.employment. -/
theorem workExperience_iff_employment (data : WebhookData) (email : String)
    (environment : Env) (now : String) :
    ((buildWebhookPayload data email environment now).cv_data.work_experience.isSome
        = data.employment.isSome)
      ∧ (buildWebhookPayload data email environment now).cv_data.work_experience
        = data.employment :=
  ⟨rfl, rfl⟩

/-- One failing retry step: when the attempt fails, the loop records the
error, awaits one delay, and continues with one fewer remaining attempt. -/
theorem retryGo_succ (notify : Nat → NotifyResult) (retries n attempts delays : Nat)
    (lastError : String) (h : (notify (attempts + 1)).success = false) :
    retryGo notify retries (n + 1) attempts delays lastError
      = retryGo notify retries n (attempts + 1) (delays + 1)
          ((notify (attempts + 1)).error.getD "undefined") := by
  simp [retryGo, h]

/-- One succeeding retry step: the successful notifier result is returned
immediately with no further delay. -/
theorem retryGo_success (notify : Nat → NotifyResult) (retries n attempts delays : Nat)
    (lastError : String) (h : (notify (attempts + 1)).success = true) :
    retryGo notify retries (n + 1) attempts delays lastError
      = ⟨notify (attempts + 1), attempts + 1, delays⟩ := by
  simp [retryGo, h]

/-- Exhausting the loop against an always-failing notifier: all remaining
attempts are made, each followed by a delay, and the aggregated failure
carries the error of the last attempt. -/
theorem retryGo_allFail (notify : Nat → NotifyResult) (retries : Nat)
    (hF : ∀ i, (notify i).success = false) :
    ∀ (n attempts delays : Nat) (lastError : String),
      retryGo notify retries (n + 1) attempts delays lastError =
        ⟨⟨false, none, none,
            some (failAggregate retries
              ((notify (attempts + n + 1)).error.getD "undefined")), none⟩,
          attempts + n + 1, delays + n + 1⟩ := by
  intro n
  induction n with
  | zero =>
    intro attempts delays lastError
    rw [retryGo_succ notify retries 0 attempts delays lastError (hF (attempts + 1))]
    simp [retryGo]
  | succ m ih =>
    intro attempts delays lastError
    rw [retryGo_succ notify retries (m + 1) attempts delays lastError (hF (attempts + 1))]
    rw [ih (attempts + 1) (delays + 1) ((notify (attempts + 1)).error.getD "undefined")]
    have h1 : attempts + 1 + m + 1 = attempts + (m + 1) + 1 := by omega
    have h2 : delays + 1 + m + 1 = delays + (m + 1) + 1 := by omega
    rw [h1, h2]

/-- C3: against a notifier that fails on the first two attempts and
succeeds on the third, retryWebhook with retries 3 returns the successful
result after exactly 3 attempts; against a notifier that fails on every
attempt, it returns success false after exactly retries attempts, with
the aggregated message naming the attempt count and the last error. -/
theorem retryWebhook_spec (notify notifyF : Nat → NotifyResult)
    (h1 : (notify 1).success = false) (h2 : (notify 2).success = false)
    (h3 : (notify 3).success = true)
    (retries : Nat) (hr : 1 ≤ retries)
    (hF : ∀ i, (notifyF i).success = false) :
    ((retryWebhook notify 3).result = notify 3
        ∧ (retryWebhook notify 3).attempts = 3)
      ∧ ((retryWebhook notifyF retries).result.success = false
        ∧ (retryWebhook notifyF retries).attempts = retries
        ∧ (retryWebhook notifyF retries).result.error
            = some (failAggregate retries ((notifyF retries).error.getD "undefined"))) := by
  constructor
  · have s1 : retryWebhook notify 3
        = retryGo notify 3 2 1 1 ((notify 1).error.getD "undefined") := by
      have h := retryGo_succ notify 3 2 0 0 "undefined" (by simpa using h1)
      simpa [retryWebhook] using h
    have s2 : retryGo notify 3 2 1 1 ((notify 1).error.getD "undefined")
        = retryGo notify 3 1 2 2 ((notify 2).error.getD "undefined") := by
      have h := retryGo_succ notify 3 1 1 1 ((notify 1).error.getD "undefined")
        (by simpa using h2)
      simpa using h
    have s3 : retryGo notify 3 1 2 2 ((notify 2).error.getD "undefined")
        = ⟨notify 3, 3, 2⟩ := by
      have h := retryGo_success notify 3 0 2 2 ((notify 2).error.getD "undefined")
        (by simpa using h3)
      simpa using h
    have chain : retryWebhook notify 3 = ⟨notify 3, 3, 2⟩ := (s1.trans s2).trans s3
    exact ⟨by rw [chain], by rw [chain]⟩
  · obtain ⟨n, rfl⟩ : ∃ n, retries = n + 1 := ⟨retries - 1, by omega⟩
    have h := retryGo_allFail notifyF (n + 1) hF n 0 0 "undefined"
    have e : retryWebhook notifyF (n + 1)
        = retryGo notifyF (n + 1) (n + 1) 0 0 "undefined" := rfl
    rw [e, h]
    refine ⟨rfl, by simp, by simp⟩

/-- Witness for retryWebhook_spec at concrete notifier behaviours. -/
theorem retryWebhook_spec_witness :
    ((retryWebhook notifyThird 3).result = notifyThird 3
        ∧ (retryWebhook notifyThird 3).attempts = 3)
      ∧ ((retryWebhook notifyNever 3).result.success = false
        ∧ (retryWebhook notifyNever 3).attempts = 3
        ∧ (retryWebhook notifyNever 3).result.error
            = some (failAggregate 3 ((notifyNever 3).error.getD "undefined"))) :=
  retryWebhook_spec notifyThird notifyNever (by decide) (by decide) (by decide)
    3 (by decide) (fun _ => rfl)

/-- C10: against a notifier that fails every attempt, retryWebhook awaits
the inter-attempt delay after every failed attempt including the final
one, so exactly retries delays elapse before the aggregated failure is
returned. -/
theorem retryWebhook_delay_count (notify : Nat → NotifyResult) (retries : Nat)
    (hF : ∀ i, (notify i).success = false) :
    (retryWebhook notify retries).delays = retries := by
  cases retries with
  | zero => rfl
  | succ n =>
    have h := retryGo_allFail notify (n + 1) hF n 0 0 "undefined"
    have e : retryWebhook notify (n + 1)
        = retryGo notify (n + 1) (n + 1) 0 0 "undefined" := rfl
    rw [e, h]
    simp

/-- Witness for retryWebhook_delay_count at a concrete notifier. -/
theorem retryWebhook_delay_count_witness :
    (retryWebhook notifyNever 4).delays = 4 :=
  retryWebhook_delay_count notifyNever 4 (fun _ => rfl)

/-- C8: when the availability probe fails, the parse request is never
issued and null is returned; when the parse request itself fails, null is
returned rather than an exception (the operation is a total function into
an optional result). -/
theorem pythonService_degrades (fileUrl : String)
    (parseOutcome : Except String String) :
    (sendUrlToPythonService fileUrl false parseOutcome
        = (none, [PyEffect.healthProbe]))
      ∧ (∀ e, parseOutcome = .error e →
        sendUrlToPythonService fileUrl true parseOutcome
          = (none, [PyEffect.healthProbe, PyEffect.parseRequest fileUrl])) := by
  constructor
  · rfl
  · intro e he
    simp [sendUrlToPythonService, he]

/-- Witness for pythonService_degrades at a concrete url and failure. -/
theorem pythonService_degrades_witness :
    sendUrlToPythonService "u" false (Except.error "reset")
        = (none, [PyEffect.healthProbe])
      ∧ sendUrlToPythonService "u" true (Except.error "reset")
        = (none, [PyEffect.healthProbe, PyEffect.parseRequest "u"]) :=
  ⟨(pythonService_degrades "u" (Except.error "reset")).1,
    (pythonService_degrades "u" (Except.error "reset")).2 "reset" rfl⟩

/-- C4: a submission missing any of name, email, phone or the cv file is
answered with the 400 missing-fields response and an empty effect trace:
no upload (hence no parser call), no webhook call and no save occur. -/
theorem postApplication_missing_field (form : SubmissionForm) (env : PipelineEnv)
    (h : form.name = none ∨ form.email = none ∨ form.phone = none ∨ form.cv = none) :
    postApplication form env = (resp400, []) := by
  obtain ⟨n, e, p, c⟩ := form
  cases n <;> cases e <;> cases p <;> cases c <;> simp_all [postApplication]

/-- Witness for postApplication_missing_field: a form without a name. -/
theorem postApplication_missing_field_witness :
    postApplication ⟨none, some "a@b.com", some "1234567890", some cvSample⟩
        envSample = (resp400, []) :=
  postApplication_missing_field _ envSample (Or.inl rfl)

/-- C6: when the enrichment response carries parsed_data whose structural
projection throws, the pipeline still saves a record whose parsedResume
holds exactly rawData equal to the original parsed_data payload, and a
webhook attempt is made with that raw payload and the form email. -/
theorem submission_raw_fallback (name email phone : String) (cvFile : CVFile)
    (env : PipelineEnv) (ur : UploadResult) (raw : String)
    (hn : ¬ name = "") (he : ¬ email = "") (hp : ¬ phone = "")
    (hu : env.uploadOutcome = .ok ur)
    (hpr : ur.pythonResponse = some ⟨some raw⟩)
    (hraw : ¬ raw = "")
    (hproj : env.projectOutcome raw = .error ())
    (hsave : env.saveOutcome = .ok ()) :
    postApplication ⟨some name, some email, some phone, some cvFile⟩ env =
      (⟨201, some true, some "Application submitted successfully", none,
          some env.webhookOutcome.success, none⟩,
        [Effect.upload cvFile.name true,
          Effect.webhook (rawOnlyWebhookData raw) email Env.testing,
          Effect.save
            { name := name, email := email, phone := phone,
              cv := { fileName := cvFile.name, fileType := cvFile.type,
                      fileSize := cvFile.size, url := ur.fileUrl,
                      pythonAnalysis := some ⟨some raw⟩ },
              parsedResume := some (rawOnlyParsedResume raw),
              webhookSent := env.webhookOutcome.success,
              webhookResponse := some env.webhookOutcome }]) := by
  simp [postApplication, postAfterValidation, afterUpload, processEnrichment,
    hn, he, hp, hu, hpr, hraw, hproj, hsave]

/-- Witness for submission_raw_fallback at a concrete run. -/
theorem submission_raw_fallback_witness :
    postApplication
        ⟨some "A", some "a@b.com", some "1234567890", some cvSample⟩ envSample =
      (⟨201, some true, some "Application submitted successfully", none,
          some false, none⟩,
        [Effect.upload "cv.pdf" true,
          Effect.webhook (rawOnlyWebhookData "RAW") "a@b.com" Env.testing,
          Effect.save
            { name := "A", email := "a@b.com", phone := "1234567890",
              cv := { fileName := "cv.pdf", fileType := "application/pdf",
                      fileSize := 2048,
                      url := "https://bucket.s3.amazonaws.com/cv.pdf",
                      pythonAnalysis := some ⟨some "RAW"⟩ },
              parsedResume := some (rawOnlyParsedResume "RAW"),
              webhookSent := false,
              webhookResponse := some wresFail }]) :=
  submission_raw_fallback "A" "a@b.com" "1234567890" cvSample envSample
    ⟨"https://bucket.s3.amazonaws.com/cv.pdf", some ⟨some "RAW"⟩⟩ "RAW"
    (by decide) (by decide) (by decide) rfl rfl (by decide) rfl rfl

/-- C7: resending for a record with no parsedResume at all sends a
notification whose data is exactly the three fields fullName, email and
cvUrl, taken from the base record fields name, email and cv.url. -/
theorem resend_minimal_payload (app : ApplicationRecord) (env : ResendEnv)
    (h : app.parsedResume = none) :
    (resendWebhook (some app) env).2.head? =
      some (Effect.webhook
        ⟨some app.name, some app.email, none, none, none, none, none, none,
          none, some app.cv.url⟩
        app.email Env.prod) := by
  rcases hs : env.saveOutcome with msg | u <;>
    simp [resendWebhook, resendData, h, fallbackMinimal, hs]

/-- Witness for resend_minimal_payload at a concrete record. -/
theorem resend_minimal_payload_witness :
    (resendWebhook (some appSample) resendEnvSample).2.head? =
      some (Effect.webhook
        ⟨some "A", some "a@b.com", none, none, none, none, none, none, none,
          some "https://bucket.s3.amazonaws.com/cv.pdf"⟩
        "a@b.com" Env.prod) :=
  resend_minimal_payload appSample resendEnvSample rfl

/-- C9: when the record is found and the save succeeds, the resend
endpoint answers 200 with success true and the fixed message even when
the notifier result has success false; the delivery failure appears only
in the embedded webhookResult field. -/
theorem resend_success_masks_failure (app : ApplicationRecord) (env : ResendEnv)
    (hsave : env.saveOutcome = .ok ())
    (hfail : env.webhookOutcome.success = false) :
    (resendWebhook (some app) env).1.statusCode = 200
      ∧ (resendWebhook (some app) env).1.success = some true
      ∧ (resendWebhook (some app) env).1.message = some "Webhook resent successfully"
      ∧ (resendWebhook (some app) env).1.webhookResult = some env.webhookOutcome := by
  simp [resendWebhook, hsave]

/-- Witness for resend_success_masks_failure at a concrete record and a
failed notifier result. -/
theorem resend_success_masks_failure_witness :
    (resendWebhook (some appSample) resendEnvSample).1.statusCode = 200
      ∧ (resendWebhook (some appSample) resendEnvSample).1.success = some true
      ∧ (resendWebhook (some appSample) resendEnvSample).1.message
          = some "Webhook resent successfully"
      ∧ (resendWebhook (some appSample) resendEnvSample).1.webhookResult
          = some wresFail :=
  resend_success_masks_failure appSample resendEnvSample rfl rfl

end Metana
